import Mathlib

/-!
Shallow embedding of the Constant Contact proxy client
(`src/lib/constantContact.ts`) and of the contact-detail route handler
(`src/app/api/contacts/[id]/route.ts`).

Modelling choices:
* JSON values are the inductive `Json`; `JSON.parse` is kept abstract as a
  parameter `parse : String → Option Json` (`none` = parse failure).  The
  code's `safeJson` conflates a parse failure with a successfully parsed
  JSON `null` (both behave identically under `??` and under truthiness), so
  `parseBody` collapses `some .null` to `none`.
* JavaScript truthiness is `jsTruthy`; `requireEnv`'s `if (!v)` and the
  `opts.body ?` / `!tokenResp.access_token` checks are truthiness checks.
* Network calls are oracles: each modelled operation receives the
  `HttpResp` the corresponding `fetch` would produce, and reports how many
  token-endpoint calls it performed.
* The in-memory access token cache may hold any JSON value (the source
  assigns `tokenResp.access_token` unchecked), so the cache is
  `Option Json`.
-/

/-- JSON values (numbers restricted to integers; no claim involves
non-integral numbers). -/
inductive Json where
  | null : Json
  | bool : Bool → Json
  | num : Int → Json
  | str : String → Json
  | arr : List Json → Json
  | obj : List (String × Json) → Json
deriving Repr

/-- JavaScript truthiness of a JSON value: `null`, `false`, `0` and `""`
are falsy; arrays and objects are always truthy. -/
def jsTruthy : Json → Bool
  | .null => false
  | .bool b => b
  | .num n => n != 0
  | .str s => s != ""
  | .arr _ => true
  | .obj _ => true

/-- Truthiness of a nullable value (`null`/absent is falsy). -/
def truthyOpt : Option Json → Bool
  | none => false
  | some j => jsTruthy j

/-- JavaScript property access `j.k` on a parsed JSON value: defined only
when `j` is an object with key `k`, otherwise `undefined` (`none`). -/
def getField (j : Json) (k : String) : Option Json :=
  match j with
  | .obj kvs => (kvs.find? (fun kv => kv.1 == k)).map (·.2)
  | _ => none

/-- `j.k₁ || j.k₂ || ...`: the first field value that is present and
truthy, if any. -/
def firstTruthyField (j : Json) : List String → Option Json
  | [] => none
  | k :: ks =>
    match getField j k with
    | some v => if jsTruthy v then some v else firstTruthyField j ks
    | none => firstTruthyField j ks

/-- `process.env`: a partial map from variable names to strings. -/
def Env : Type := String → Option String

/-- Errors thrown by the client.  A plain `Error` has `status = none` and
`details = none`; upstream HTTP failures also carry `status` and
`details`.  The `message` is kept as the JSON value the `||` chain
selected (the source can pick a non-string field value), with the default
message wrapped as `.str`. -/
structure JsError where
  message : Json
  status : Option Nat
  details : Option (Json ⊕ String)
deriving Repr

/-- `new Error("Missing environment variable: " + name)` thrown by
`requireEnv` and `getAccessToken`. -/
def missingEnvErr (name : String) : JsError :=
  { message := .str ("Missing environment variable: " ++ name)
  , status := none
  , details := none }

/-- `requireEnv` (constantContact.ts lines 15–19): reads the variable and
throws when it is absent or empty (`if (!v)` is a truthiness check). -/
def requireEnv (env : Env) (name : String) : Except JsError String :=
  match env name with
  | some v => if v = "" then .error (missingEnvErr name) else .ok v
  | none => .error (missingEnvErr name)

/-- An HTTP response as observed by the client: numeric status plus the
body text returned by `res.text()`. -/
structure HttpResp where
  status : Nat
  bodyText : String
deriving Repr

/-- `res.ok`: true exactly for statuses 200–299. -/
def resOk (status : Nat) : Bool :=
  decide (200 ≤ status ∧ status ≤ 299)

/-- `text ? safeJson(text) : null` (lines 74–75 and 112–113): an empty
body, a parse failure, and a body parsing to JSON `null` all yield the
JavaScript value `null`, which behaves identically under `??` and under
truthiness, so all three collapse to `none`. -/
def parseBody (parse : String → Option Json) (text : String) : Option Json :=
  if text = "" then none
  else
    match parse text with
    | some .null => none
    | some j => some j
    | none => none

/-- `data ?? text` (line 84) / `json ?? text` (line 121): the parsed body
when it is non-null, otherwise the raw body text. -/
def errDetails (parse : String → Option Json) (res : HttpResp) : Json ⊕ String :=
  match parseBody parse res.bodyText with
  | some j => .inl j
  | none => .inr res.bodyText

/-- `(data && (data.message || ...)) || default` (lines 79–81, 116–118):
the first truthy field among `keys` when the parsed body is truthy,
otherwise the default message string. -/
def errMessage (dataOpt : Option Json) (keys : List String) (dflt : String) : Json :=
  match dataOpt with
  | some j =>
    if jsTruthy j then
      match firstTruthyField j keys with
      | some v => v
      | none => .str dflt
    else .str dflt
  | none => .str dflt

/-- Successful result of `ccFetchJsonWithToken`: `{ status, data }`. -/
structure FetchOk where
  status : Nat
  data : Json
deriving Repr

/-- Response handling of `ccFetchJsonWithToken` (lines 74–88): on a
non-2xx status, throw an error carrying the exact status and the parsed
(or raw-text) body; on 2xx return the status and the parsed body,
substituting `{}` when the body was empty/unparseable/null
(`data ?? {}`). -/
def handleResponse (parse : String → Option Json) (res : HttpResp) :
    Except JsError FetchOk :=
  let dataOpt := parseBody parse res.bodyText
  if resOk res.status then
    .ok { status := res.status, data := dataOpt.getD (.obj []) }
  else
    .error
      { message := errMessage dataOpt ["message", "error", "title", "error_message"]
          ("Constant Contact API error (" ++ toString res.status ++ ")")
      , status := some res.status
      , details := some (errDetails parse res) }

/-- A query value as allowed by `FetchOpts.query`:
`string | number | boolean` (with `undefined` modelled as the surrounding
`Option`). -/
inductive QVal where
  | s : String → QVal
  | n : Int → QVal
  | b : Bool → QVal
deriving Repr

/-- JavaScript `String(v)` on a query value. -/
def qvalStr : QVal → String
  | .s v => v
  | .n v => toString v
  | .b true => "true"
  | .b false => "false"

/-- `FetchOpts` (lines 1–6): method defaults to GET; query entries may be
`undefined` (`none`); the body is an arbitrary JSON value when present. -/
structure FetchOpts where
  method : Option String := none
  path : String
  query : Option (List (String × Option QVal)) := none
  body : Option Json := none

/-- `baseUrl.replace(/\/$/, "")`: drop one trailing slash, if any. -/
def stripTrailingSlash (s : String) : String :=
  match s.toList.reverse with
  | '/' :: rest => String.mk rest.reverse
  | _ => s

/-- `url.searchParams.set(k, v)`: replaces the value when the key is
present, otherwise appends it. -/
def setParam (ps : List (String × String)) (k v : String) :
    List (String × String) :=
  if ps.any (fun kv => kv.1 == k) then
    ps.map (fun kv => if kv.1 == k then (k, v) else kv)
  else ps ++ [(k, v)]

/-- The upstream request assembled by `ccFetchJsonWithToken`
(lines 55–72), represented structurally: the URL without its query
string, the query parameters, the token of the `Authorization: Bearer`
header, the fixed `Accept` header, and the JSON body and its
`Content-Type` header, which the source attaches only when `opts.body`
is truthy. -/
structure CcRequest where
  method : String
  url : String
  query : List (String × String)
  authToken : Json
  accept : String
  contentTypeJson : Bool
  body : Option Json
deriving Repr

/-- URL and request construction of `ccFetchJsonWithToken`
(lines 55–72): entries with value `undefined` are skipped
(`if (v !== undefined)`), all others are stringified and set on the
URL's search parameters; the body and its JSON `Content-Type` header are
attached only when `opts.body` is truthy (`opts.body ? ... : ...`). -/
def buildRequest (baseUrl : String) (token : Json) (opts : FetchOpts) :
    CcRequest :=
  { method := opts.method.getD "GET"
  , url := stripTrailingSlash baseUrl ++ opts.path
  , query :=
      match opts.query with
      | none => []
      | some entries =>
        entries.foldl
          (fun ps kv =>
            match kv.2 with
            | none => ps
            | some v => setParam ps kv.1 (qvalStr v)) []
  , authToken := token
  , accept := "application/json"
  , contentTypeJson := match opts.body with
      | some b => jsTruthy b
      | none => false
  , body :=
      match opts.body with
      | some b => if jsTruthy b then some b else none
      | none => none }

/-- `getAccessToken` (lines 43–52): when the cache is falsy, refill it
from `process.env.CC_ACCESS_TOKEN ?? null`; then throw if it is still
falsy, else return it.  Returns the (possibly refilled) cache alongside
the result. -/
def getAccessToken (env : Env) (cache : Option Json) :
    Except JsError Json × Option Json :=
  let c := if truthyOpt cache then cache else (env "CC_ACCESS_TOKEN").map .str
  match c with
  | some j =>
    if jsTruthy j then (.ok j, some j)
    else (.error (missingEnvErr "CC_ACCESS_TOKEN"), some j)
  | none => (.error (missingEnvErr "CC_ACCESS_TOKEN"), none)

/-- `throw new Error("Token refresh succeeded but no access_token was
returned.")` (line 127). -/
def protocolErr : JsError :=
  { message := .str "Token refresh succeeded but no access_token was returned."
  , status := none
  , details := none }

/-- The token-endpoint exchange of `refreshAccessToken` (lines 112–136),
given the endpoint's response: on a non-2xx status, throw an error with
the status and the parsed (or raw-text) body, leaving the cache
untouched; on 2xx, adopt `(json ?? {}).access_token` when it is truthy
(`if (!tokenResp.access_token) throw`), overwriting the cache and
returning it.  Returns (result, new cache). -/
def refreshExchange (parse : String → Option Json) (cache : Option Json)
    (res : HttpResp) : Except JsError Json × Option Json :=
  let jsonOpt := parseBody parse res.bodyText
  if resOk res.status then
    match getField (jsonOpt.getD (.obj [])) "access_token" with
    | some v =>
      if jsTruthy v then (.ok v, some v) else (.error protocolErr, cache)
    | none => (.error protocolErr, cache)
  else
    (.error
      { message := errMessage jsonOpt ["error_description", "error", "message"]
          ("Failed to refresh Constant Contact token (" ++ toString res.status ++ ")")
      , status := some res.status
      , details := some (errDetails parse res) }, cache)

/-- `refreshAccessToken` (lines 91–144) in the sequential case
(`refreshInFlight` is null on entry, and is null again after the
`finally`): check `CC_CLIENT_ID` then `CC_REFRESH_TOKEN` (lines 95–96),
then perform the token-endpoint exchange.  Returns
(result, new cache, number of token-endpoint network calls). -/
def refreshAccessToken (parse : String → Option Json) (env : Env)
    (cache : Option Json) (res : HttpResp) :
    Except JsError Json × Option Json × Nat :=
  match requireEnv env "CC_CLIENT_ID" with
  | .error e => (.error e, cache, 0)
  | .ok _ =>
    match requireEnv env "CC_REFRESH_TOKEN" with
    | .error e => (.error e, cache, 0)
    | .ok _ =>
      ((refreshExchange parse cache res).1, (refreshExchange parse cache res).2, 1)

/-- Observable outcome of one `ccFetchJson` call: the result, the cache
after the call, the upstream requests actually sent (in order), and the
number of token-endpoint network calls. -/
structure ExecOut where
  result : Except JsError FetchOk
  cache : Option Json
  reqs : List CcRequest
  tokenCalls : Nat

/-- `ccFetchJson` (lines 27–41): read `CC_BASE_URL`, get the current
token, attempt the request; on an error with `status === 401`, refresh
and retry exactly once with the new token; any other error (and any
error of the refresh or of the retry) propagates.  Network oracles:
`res1` for the first attempt, `tokenRes` for the token endpoint, `res2`
for the retry; an oracle is consumed only if the corresponding call is
reached. -/
def ccFetchJson (parse : String → Option Json) (env : Env)
    (cache0 : Option Json) (opts : FetchOpts)
    (res1 tokenRes res2 : HttpResp) : ExecOut :=
  match requireEnv env "CC_BASE_URL" with
  | .error e => ⟨.error e, cache0, [], 0⟩
  | .ok baseUrl =>
    match getAccessToken env cache0 with
    | (.error e, cache1) => ⟨.error e, cache1, [], 0⟩
    | (.ok tok, cache1) =>
      let req1 := buildRequest baseUrl tok opts
      match handleResponse parse res1 with
      | .ok v => ⟨.ok v, cache1, [req1], 0⟩
      | .error e =>
        if e.status = some 401 then
          match refreshAccessToken parse env cache1 tokenRes with
          | (.error e2, cache2, n) => ⟨.error e2, cache2, [req1], n⟩
          | (.ok newTok, cache2, n) =>
            ⟨handleResponse parse res2, cache2,
              [req1, buildRequest baseUrl newTok opts], n⟩
        else ⟨.error e, cache1, [req1], 0⟩

/-- `ALLOWED_INCLUDE` (route.ts lines 4–11). -/
def ALLOWED_INCLUDE : List String :=
  ["custom_fields", "list_memberships", "phone_numbers",
   "street_addresses", "taggings", "notes"]

/-- Whitespace for the purposes of JavaScript `trim()` (the inputs of
interest contain no exotic Unicode space, so ASCII whitespace
suffices). -/
def isJsSpace (c : Char) : Bool :=
  c = ' ' || c = '\t' || c = '\n' || c = '\r'

/-- JavaScript `String.prototype.trim`, on the character list. -/
def jsTrim (l : List Char) : List Char :=
  ((l.dropWhile isJsSpace).reverse.dropWhile isJsSpace).reverse

/-- JavaScript `String.prototype.split` with a single-character
separator: split at every occurrence, keeping empty segments
(`"".split(",") = [""]`, `",".split(",") = ["", ""]`). -/
def splitChar (sep : Char) (l : List Char) : List (List Char) :=
  l.foldr
    (fun c acc =>
      match acc with
      | [] => [[c]]
      | g :: gs => if c = sep then [] :: g :: gs else (c :: g) :: gs)
    [[]]

/-- `parseCsv` (route.ts lines 75–80): split on commas, trim each piece,
drop empty pieces (`filter(Boolean)`). -/
def parseCsv (v : String) : List String :=
  ((splitChar ',' v.toList).map (fun l => String.mk (jsTrim l))).filter
    (fun s => s ≠ "")

/-- One hexadecimal digit, either case (`[0-9a-f]` under the `/i`
flag). -/
def isHexDigit (c : Char) : Bool :=
  c.isDigit || ('a' ≤ c && c ≤ 'f') || ('A' ≤ c && c ≤ 'F')

/-- A run of exactly `n` hexadecimal digits. -/
def hexSeg (l : List Char) (n : Nat) : Bool :=
  l.length == n && l.all isHexDigit

/-- `looksUuid` (route.ts lines 82–84): the trimmed string matches
`/^[0-9a-f]{8}-[0-9a-f]{4}-[0-9a-f]{4}-[0-9a-f]{4}-[0-9a-f]{12}$/i`,
i.e. splitting on dashes yields exactly five all-hex groups of lengths
8, 4, 4, 4, 12 (hex digits and dashes leave no other way to match the
anchored pattern). -/
def looksUuid (v : String) : Bool :=
  match splitChar '-' (jsTrim v.toList) with
  | [a, b, c, d, e] =>
    hexSeg a 8 && hexSeg b 4 && hexSeg c 4 && hexSeg d 4 && hexSeg e 12
  | _ => false

/-- A response produced by the route handler, plus whether the upstream
contact service (`ccFetchJson`) was invoked. -/
structure RouteResult where
  status : Nat
  body : Json
  upstreamCalled : Bool
deriving Repr

/-- `e.details ?? null` in the route's catch clause (route.ts line 67). -/
def detailsJson : Option (Json ⊕ String) → Json
  | some (.inl j) => j
  | some (.inr t) => .str t
  | none => .null

/-- The contact-detail `GET` handler (route.ts lines 13–71): validate the
`id` path parameter with `looksUuid`, then — when an `include` query
parameter is present — CSV-parse it, rejecting an empty list and any
value outside `ALLOWED_INCLUDE` (first offending value, as the loop
returns immediately); only when validation passes is `ccFetchJson`
invoked, whose outcome `fetchRes` is an oracle here.  A success is
passed through as (status, data); an error is mapped by the catch clause
to `e.status ?? 500` with body `{ error: e.message, details: e.details ?? null }`. -/
def contactDetailGET (id : String) (includeRaw : Option String)
    (fetchRes : Except JsError FetchOk) : RouteResult :=
  if !looksUuid id then
    ⟨400, .obj [("error", .str "Bad request: contact_id must be a UUID.")], false⟩
  else
    let go : RouteResult :=
      match fetchRes with
      | .ok v => ⟨v.status, v.data, true⟩
      | .error e =>
        ⟨e.status.getD 500,
         .obj [("error", e.message), ("details", detailsJson e.details)], true⟩
    match includeRaw with
    | none => go
    | some raw =>
      let values := parseCsv raw
      if values = [] then
        ⟨400, .obj [("error", .str "Bad request: include cannot be empty. Example: include=phone_numbers,street_addresses")], false⟩
      else
        match values.find? (fun v => !ALLOWED_INCLUDE.contains v) with
        | some v =>
          ⟨400, .obj [("error", .str ("Bad request: invalid include \"" ++ v ++ "\"."))], false⟩
        | none => go

/-!
Concurrency model of `refreshAccessToken` (lines 91–144).

The runtime is single-threaded and cooperative; a logical task yields
only at `await`.  Each call to `refreshAccessToken` is a task.  The
atomic regions of the source are:

* line 92 with the slot occupied: read `refreshInFlight` and return the
  in-flight promise (`attach`);
* lines 92–110 with the slot empty: the async IIFE runs synchronously up
  to its first `await` — the two `requireEnv` checks and the initiation
  of the token-endpoint `fetch` — and the resulting promise is stored in
  `refreshInFlight` before any other task can run (`createOk`; when a
  `requireEnv` throws, the IIFE yields an already-rejected promise and no
  network call is made: `createEnvFail`);
* the continuation after the `fetch`/`text()` awaits (lines 112–136):
  process the token-endpoint response via `refreshExchange` and settle
  the promise (`settle`);
* the creator's `await refreshInFlight` resuming (lines 139–143): its
  `finally` clears `refreshInFlight` and the call returns/throws
  (`creatorFinish`);
* a task that attached at line 92 resuming with the promise's settled
  value (`attachedFinish`).

Promises are numbered by creation order; a pending promise is exactly an
initiated-but-unanswered token-endpoint network call.
-/

/-- Lines 95–96 of `refreshAccessToken`: the error of the first failing
`requireEnv`, if any (`CC_CLIENT_ID` is checked before
`CC_REFRESH_TOKEN`). -/
def envFirstMissing (env : Env) : Option JsError :=
  match requireEnv env "CC_CLIENT_ID" with
  | .error e => some e
  | .ok _ =>
    match requireEnv env "CC_REFRESH_TOKEN" with
    | .error e => some e
    | .ok _ => none

/-- State of a refresh promise. -/
inductive PromSt where
  | absent
  | pending
  | settled (r : Except JsError Json)

/-- State of one task calling `refreshAccessToken`. -/
inductive TaskSt where
  | ready
  | creatorAwait (p : Nat)
  | attachedAwait (p : Nat)
  | done (r : Except JsError Json)

/-- Global state of the refresh machinery: the environment, the
`refreshInFlight` slot, the promises created so far, the
`accessTokenCache`, the number of token-endpoint network calls made, and
the task states. -/
structure RSt where
  env : Env
  refreshInFlight : Option Nat
  proms : Nat → PromSt
  nextProm : Nat
  cache : Option Json
  totalCalls : Nat
  tasks : Nat → TaskSt

/-- One atomic step of the cooperative scheduler (see the module comment
above for the source regions each constructor embeds).  The `settle`
step carries the token-endpoint response chosen by the network. -/
inductive RStep (parse : String → Option Json) : RSt → RSt → Prop where
  | attach (s : RSt) (i p : Nat)
      (hi : s.tasks i = .ready)
      (hp : s.refreshInFlight = some p) :
      RStep parse s
        { s with tasks := Function.update s.tasks i (.attachedAwait p) }
  | createOk (s : RSt) (i : Nat)
      (hi : s.tasks i = .ready)
      (hn : s.refreshInFlight = none)
      (henv : envFirstMissing s.env = none) :
      RStep parse s
        { s with refreshInFlight := some s.nextProm
               , proms := Function.update s.proms s.nextProm .pending
               , nextProm := s.nextProm + 1
               , totalCalls := s.totalCalls + 1
               , tasks := Function.update s.tasks i (.creatorAwait s.nextProm) }
  | createEnvFail (s : RSt) (i : Nat) (e : JsError)
      (hi : s.tasks i = .ready)
      (hn : s.refreshInFlight = none)
      (henv : envFirstMissing s.env = some e) :
      RStep parse s
        { s with refreshInFlight := some s.nextProm
               , proms := Function.update s.proms s.nextProm (.settled (.error e))
               , nextProm := s.nextProm + 1
               , tasks := Function.update s.tasks i (.creatorAwait s.nextProm) }
  | settle (s : RSt) (p : Nat) (res : HttpResp)
      (hp : s.proms p = .pending) :
      RStep parse s
        { s with proms := Function.update s.proms p
                   (.settled (refreshExchange parse s.cache res).1)
               , cache := (refreshExchange parse s.cache res).2 }
  | creatorFinish (s : RSt) (i p : Nat) (r : Except JsError Json)
      (hi : s.tasks i = .creatorAwait p)
      (hp : s.proms p = .settled r) :
      RStep parse s
        { s with refreshInFlight := none
               , tasks := Function.update s.tasks i (.done r) }
  | attachedFinish (s : RSt) (i p : Nat) (r : Except JsError Json)
      (hi : s.tasks i = .attachedAwait p)
      (hp : s.proms p = .settled r) :
      RStep parse s
        { s with tasks := Function.update s.tasks i (.done r) }

/-- Reachability under the scheduler. -/
def RReach (parse : String → Option Json) : RSt → RSt → Prop :=
  Relation.ReflTransGen (RStep parse)

/-- A module-load state: no promise exists, no call has been made, and
every task is about to call `refreshAccessToken`. -/
def RInit (s : RSt) : Prop :=
  s.refreshInFlight = none ∧ s.nextProm = 0 ∧ s.totalCalls = 0 ∧
  (∀ p, s.proms p = .absent) ∧ (∀ i, s.tasks i = .ready)

/-- The inductive invariant: (a) a pending promise is the one in the
slot; (b) a creator's promise is the one in the slot; (c) at most one
creator exists; (d) promise numbers at or beyond `nextProm` are unborn. -/
def RInv (s : RSt) : Prop :=
  (∀ p, s.proms p = .pending → s.refreshInFlight = some p) ∧
  (∀ i p, s.tasks i = .creatorAwait p → s.refreshInFlight = some p) ∧
  (∀ i j p q, s.tasks i = .creatorAwait p → s.tasks j = .creatorAwait q → i = j) ∧
  (∀ p, s.nextProm ≤ p → s.proms p = .absent)

theorem rinit_inv {s : RSt} (h : RInit s) : RInv s := by
  obtain ⟨hslot, -, -, hproms, htasks⟩ := h
  refine ⟨?_, ?_, ?_, ?_⟩
  · intro p hp; rw [hproms p] at hp; cases hp
  · intro i p hi; rw [htasks i] at hi; cases hi
  · intro i j p q hi _; rw [htasks i] at hi; cases hi
  · intro p _; exact hproms p

theorem rinv_step {parse : String → Option Json} {s s' : RSt}
    (hs : RInv s) (h : RStep parse s s') : RInv s' := by
  obtain ⟨ha, hb, hc, hd⟩ := hs
  cases h with
  | attach i p hi hp =>
    refine ⟨?_, ?_, ?_, ?_⟩ <;> dsimp only
    · exact ha
    · intro j q hj
      by_cases hji : j = i
      · subst hji; rw [Function.update_same] at hj; cases hj
      · rw [Function.update_noteq hji] at hj; exact hb j q hj
    · intro j k q q' hj hk
      by_cases hji : j = i
      · subst hji; rw [Function.update_same] at hj; cases hj
      · by_cases hki : k = i
        · subst hki; rw [Function.update_same] at hk; cases hk
        · rw [Function.update_noteq hji] at hj
          rw [Function.update_noteq hki] at hk
          exact hc j k q q' hj hk
    · exact hd
  | createOk i hi hn henv =>
    refine ⟨?_, ?_, ?_, ?_⟩ <;> dsimp only
    · intro q hq
      by_cases hq' : q = s.nextProm
      · subst hq'; rfl
      · rw [Function.update_noteq hq'] at hq
        rw [ha q hq] at hn; cases hn
    · intro j q hj
      by_cases hji : j = i
      · subst hji; rw [Function.update_same] at hj
        cases hj; rfl
      · rw [Function.update_noteq hji] at hj
        rw [hb j q hj] at hn; cases hn
    · intro j k q q' hj hk
      by_cases hji : j = i
      · by_cases hki : k = i
        · rw [hji, hki]
        · rw [Function.update_noteq hki] at hk
          rw [hb k q' hk] at hn; cases hn
      · rw [Function.update_noteq hji] at hj
        rw [hb j q hj] at hn; cases hn
    · intro q hq
      have hq2 : q ≠ s.nextProm := by
        intro hcontra; rw [hcontra] at hq; exact Nat.not_succ_le_self _ hq
      rw [Function.update_noteq hq2]
      exact hd q (Nat.le_of_succ_le hq)
  | createEnvFail i e hi hn henv =>
    refine ⟨?_, ?_, ?_, ?_⟩ <;> dsimp only
    · intro q hq
      by_cases hq' : q = s.nextProm
      · subst hq'; rfl
      · rw [Function.update_noteq hq'] at hq
        rw [ha q hq] at hn; cases hn
    · intro j q hj
      by_cases hji : j = i
      · subst hji; rw [Function.update_same] at hj
        cases hj; rfl
      · rw [Function.update_noteq hji] at hj
        rw [hb j q hj] at hn; cases hn
    · intro j k q q' hj hk
      by_cases hji : j = i
      · by_cases hki : k = i
        · rw [hji, hki]
        · rw [Function.update_noteq hki] at hk
          rw [hb k q' hk] at hn; cases hn
      · rw [Function.update_noteq hji] at hj
        rw [hb j q hj] at hn; cases hn
    · intro q hq
      have hq2 : q ≠ s.nextProm := by
        intro hcontra; rw [hcontra] at hq; exact Nat.not_succ_le_self _ hq
      rw [Function.update_noteq hq2]
      exact hd q (Nat.le_of_succ_le hq)
  | settle p res hp =>
    refine ⟨?_, ?_, ?_, ?_⟩ <;> dsimp only
    · intro q hq
      by_cases hq' : q = p
      · subst hq'; exact ha q hp
      · rw [Function.update_noteq hq'] at hq; exact ha q hq
    · exact hb
    · exact hc
    · intro q hq
      have hqp : q ≠ p := by
        intro hcontra; subst hcontra
        rw [hd q hq] at hp; cases hp
      rw [Function.update_noteq hqp]
      exact hd q hq
  | creatorFinish i p r hi hp =>
    have hslot : s.refreshInFlight = some p := hb i p hi
    refine ⟨?_, ?_, ?_, ?_⟩ <;> dsimp only
    · intro q hq
      have hq' := ha q hq
      rw [hslot] at hq'
      cases hq'
      rw [hp] at hq; cases hq
    · intro j q hj
      by_cases hji : j = i
      · subst hji; rw [Function.update_same] at hj; cases hj
      · rw [Function.update_noteq hji] at hj
        exact absurd (hc j i q p hj hi) hji
    · intro j k q q' hj hk
      by_cases hji : j = i
      · subst hji; rw [Function.update_same] at hj; cases hj
      · rw [Function.update_noteq hji] at hj
        exact absurd (hc j i q p hj hi) hji
    · exact hd
  | attachedFinish i p r hi hp =>
    refine ⟨?_, ?_, ?_, ?_⟩ <;> dsimp only
    · exact ha
    · intro j q hj
      by_cases hji : j = i
      · subst hji; rw [Function.update_same] at hj; cases hj
      · rw [Function.update_noteq hji] at hj; exact hb j q hj
    · intro j k q q' hj hk
      by_cases hji : j = i
      · subst hji; rw [Function.update_same] at hj; cases hj
      · by_cases hki : k = i
        · subst hki; rw [Function.update_same] at hk; cases hk
        · rw [Function.update_noteq hji] at hj
          rw [Function.update_noteq hki] at hk
          exact hc j k q q' hj hk
    · exact hd

theorem rinv_reach {parse : String → Option Json} {s s' : RSt}
    (h0 : RInv s) (h : RReach parse s s') : RInv s' := by
  induction h with
  | refl => exact h0
  | tail _ hstep ih => exact rinv_step ih hstep

theorem step_done_settled {parse : String → Option Json} {s s' : RSt}
    {i p : Nat} {r : Except JsError Json}
    (h : RStep parse s s')
    (hi : s.tasks i = .creatorAwait p ∨ s.tasks i = .attachedAwait p)
    (hdone : s'.tasks i = .done r) : s.proms p = .settled r := by
  cases h with
  | attach j q hj hq =>
    dsimp only at hdone
    by_cases hij : i = j
    · subst hij; rw [Function.update_same] at hdone; cases hdone
    · rw [Function.update_noteq hij] at hdone
      rcases hi with hi | hi <;> rw [hi] at hdone <;> cases hdone
  | createOk j hj hn henv =>
    dsimp only at hdone
    by_cases hij : i = j
    · subst hij; rw [Function.update_same] at hdone; cases hdone
    · rw [Function.update_noteq hij] at hdone
      rcases hi with hi | hi <;> rw [hi] at hdone <;> cases hdone
  | createEnvFail j e hj hn henv =>
    dsimp only at hdone
    by_cases hij : i = j
    · subst hij; rw [Function.update_same] at hdone; cases hdone
    · rw [Function.update_noteq hij] at hdone
      rcases hi with hi | hi <;> rw [hi] at hdone <;> cases hdone
  | settle q res hq =>
    dsimp only at hdone
    rcases hi with hi | hi <;> rw [hi] at hdone <;> cases hdone
  | creatorFinish j q r' hj hq =>
    dsimp only at hdone
    by_cases hij : i = j
    · subst hij
      rw [Function.update_same] at hdone
      cases hdone
      rcases hi with hi | hi
      · have hqp := hj.symm.trans hi
        cases hqp
        exact hq
      · rw [hi] at hj; cases hj
    · rw [Function.update_noteq hij] at hdone
      rcases hi with hi | hi <;> rw [hi] at hdone <;> cases hdone
  | attachedFinish j q r' hj hq =>
    dsimp only at hdone
    by_cases hij : i = j
    · subst hij
      rw [Function.update_same] at hdone
      cases hdone
      rcases hi with hi | hi
      · rw [hi] at hj; cases hj
      · have hqp := hj.symm.trans hi
        cases hqp
        exact hq
    · rw [Function.update_noteq hij] at hdone
      rcases hi with hi | hi <;> rw [hi] at hdone <;> cases hdone

theorem step_ready_attach {parse : String → Option Json} {s s' : RSt}
    {i p : Nat}
    (h : RStep parse s s') (hp : s.refreshInFlight = some p)
    (hi : s.tasks i = .ready) (hne : s'.tasks i ≠ .ready) :
    s'.tasks i = .attachedAwait p := by
  cases h with
  | attach j q hj hq =>
    dsimp only at hne ⊢
    by_cases hij : i = j
    · subst hij
      rw [Function.update_same]
      rw [hq] at hp
      cases hp
      rfl
    · rw [Function.update_noteq hij] at hne ⊢
      exact absurd hi hne
  | createOk j hj hn henv => rw [hp] at hn; cases hn
  | createEnvFail j e hj hn henv => rw [hp] at hn; cases hn
  | settle q res hq => exact absurd hi hne
  | creatorFinish j q r hj hq =>
    dsimp only at hne ⊢
    by_cases hij : i = j
    · subst hij; rw [hi] at hj; cases hj
    · rw [Function.update_noteq hij] at hne ⊢
      exact absurd hi hne
  | attachedFinish j q r hj hq =>
    dsimp only at hne ⊢
    by_cases hij : i = j
    · subst hij; rw [hi] at hj; cases hj
    · rw [Function.update_noteq hij] at hne ⊢
      exact absurd hi hne

theorem step_calls_const {parse : String → Option Json} {s s' : RSt} {p : Nat}
    (h : RStep parse s s') (hp : s.refreshInFlight = some p) :
    s'.totalCalls = s.totalCalls := by
  cases h with
  | attach j q hj hq => rfl
  | createOk j hj hn henv => rw [hp] at hn; cases hn
  | createEnvFail j e hj hn henv => rfl
  | settle q res hq => rfl
  | creatorFinish j q r hj hq => rfl
  | attachedFinish j q r hj hq => rfl

theorem step_creator_done_clears {parse : String → Option Json} {s s' : RSt}
    {i p : Nat} {r : Except JsError Json}
    (h : RStep parse s s') (hi : s.tasks i = .creatorAwait p)
    (hdone : s'.tasks i = .done r) : s'.refreshInFlight = none := by
  cases h with
  | attach j q hj hq =>
    dsimp only at hdone
    by_cases hij : i = j
    · subst hij; rw [Function.update_same] at hdone; cases hdone
    · rw [Function.update_noteq hij] at hdone
      rw [hi] at hdone; cases hdone
  | createOk j hj hn henv =>
    dsimp only at hdone
    by_cases hij : i = j
    · subst hij; rw [Function.update_same] at hdone; cases hdone
    · rw [Function.update_noteq hij] at hdone
      rw [hi] at hdone; cases hdone
  | createEnvFail j e hj hn henv =>
    dsimp only at hdone
    by_cases hij : i = j
    · subst hij; rw [Function.update_same] at hdone; cases hdone
    · rw [Function.update_noteq hij] at hdone
      rw [hi] at hdone; cases hdone
  | settle q res hq =>
    dsimp only at hdone
    rw [hi] at hdone; cases hdone
  | creatorFinish j q r' hj hq => rfl
  | attachedFinish j q r' hj hq =>
    dsimp only at hdone
    by_cases hij : i = j
    · subst hij; rw [hi] at hj; cases hj
    · rw [Function.update_noteq hij] at hdone
      rw [hi] at hdone; cases hdone

theorem step_ready_create {parse : String → Option Json} {s s' : RSt} {i : Nat}
    (h : RStep parse s s') (hn : s.refreshInFlight = none)
    (hi : s.tasks i = .ready) (hne : s'.tasks i ≠ .ready) :
    s'.tasks i = .creatorAwait s.nextProm ∧
    s'.refreshInFlight = some s.nextProm ∧
    s'.nextProm = s.nextProm + 1 := by
  cases h with
  | attach j q hj hq => rw [hn] at hq; cases hq
  | createOk j hj hn' henv =>
    dsimp only at hne ⊢
    by_cases hij : i = j
    · subst hij; rw [Function.update_same]; exact ⟨rfl, rfl, rfl⟩
    · rw [Function.update_noteq hij] at hne
      exact absurd hi hne
  | createEnvFail j e hj hn' henv =>
    dsimp only at hne ⊢
    by_cases hij : i = j
    · subst hij; rw [Function.update_same]; exact ⟨rfl, rfl, rfl⟩
    · rw [Function.update_noteq hij] at hne
      exact absurd hi hne
  | settle q res hq => exact absurd hi hne
  | creatorFinish j q r hj hq =>
    dsimp only at hne ⊢
    by_cases hij : i = j
    · subst hij; rw [hi] at hj; cases hj
    · rw [Function.update_noteq hij] at hne
      exact absurd hi hne
  | attachedFinish j q r hj hq =>
    dsimp only at hne ⊢
    by_cases hij : i = j
    · subst hij; rw [hi] at hj; cases hj
    · rw [Function.update_noteq hij] at hne
      exact absurd hi hne

/-- A trivial parse oracle and a module-load state used to instantiate
theorems about the scheduler at a concrete input. -/
def parse0 : String → Option Json := fun _ => none

/-- A concrete initial state: empty environment, empty slot, no promise,
no call yet, every task about to call `refreshAccessToken`. -/
def rInitSt : RSt :=
  { env := fun _ => none
  , refreshInFlight := none
  , proms := fun _ => .absent
  , nextProm := 0
  , cache := none
  , totalCalls := 0
  , tasks := fun _ => .ready }

/-- C1: Refresh de-duplication.  In every reachable state of the
cooperative scheduler: (1) at most one refresh network call is in flight
(any two pending promises coincide); (2) while a refresh is pending in
`refreshInFlight`, a task calling `refreshAccessToken` joins that very
pending operation rather than starting a new one; (3) no step taken
while a refresh is in the slot performs a new token-endpoint network
call; (4) every caller that completes while awaiting promise `p` —
creator or joiner — receives exactly `p`'s settled result, so all
concurrent callers read the same resulting token. -/
theorem c1_refresh_dedup (parse : String → Option Json) (s0 s : RSt)
    (hinit : RInit s0) (hreach : RReach parse s0 s) :
    (∀ p q, s.proms p = .pending → s.proms q = .pending → p = q) ∧
    (∀ s' i p, RStep parse s s' → s.refreshInFlight = some p →
       s.tasks i = .ready → s'.tasks i ≠ .ready →
       s'.tasks i = .attachedAwait p) ∧
    (∀ s' p, RStep parse s s' → s.refreshInFlight = some p →
       s'.totalCalls = s.totalCalls) ∧
    (∀ s' i p r, RStep parse s s' →
       (s.tasks i = .creatorAwait p ∨ s.tasks i = .attachedAwait p) →
       s'.tasks i = .done r → s.proms p = .settled r) := by
  have hinv := rinv_reach (rinit_inv hinit) hreach
  refine ⟨?_, ?_, ?_, ?_⟩
  · intro p q hp hq
    have h1 := hinv.1 p hp
    have h2 := hinv.1 q hq
    rw [h1] at h2
    exact Option.some.inj h2
  · intro s' i p hstep hp hi hne
    exact step_ready_attach hstep hp hi hne
  · intro s' p hstep hp
    exact step_calls_const hstep hp
  · intro s' i p r hstep hi hdone
    exact step_done_settled hstep hi hdone

/-- Witness for C1 at the concrete initial state (reachable by the empty
run). -/
theorem c1_refresh_dedup_witness :
    (∀ p q, rInitSt.proms p = .pending → rInitSt.proms q = .pending → p = q) ∧
    (∀ s' i p, RStep parse0 rInitSt s' → rInitSt.refreshInFlight = some p →
       rInitSt.tasks i = .ready → s'.tasks i ≠ .ready →
       s'.tasks i = .attachedAwait p) ∧
    (∀ s' p, RStep parse0 rInitSt s' → rInitSt.refreshInFlight = some p →
       s'.totalCalls = rInitSt.totalCalls) ∧
    (∀ s' i p r, RStep parse0 rInitSt s' →
       (rInitSt.tasks i = .creatorAwait p ∨ rInitSt.tasks i = .attachedAwait p) →
       s'.tasks i = .done r → rInitSt.proms p = .settled r) :=
  c1_refresh_dedup parse0 rInitSt rInitSt
    ⟨rfl, rfl, rfl, fun _ => rfl, fun _ => rfl⟩
    Relation.ReflTransGen.refl

/-- C6: Pending-refresh lifecycle.  In every reachable state: (1) when
the task that created the pending refresh completes — with a success or
with a failure — the `refreshInFlight` marker has been cleared (the
`finally` runs before the call returns or throws), and the promise it
awaited had settled with exactly the returned result; (2) a task calling
`refreshAccessToken` when the marker is clear starts a fresh refresh: it
becomes the creator of a brand-new promise (number `s.nextProm`, unborn
in `s`), which is installed as the new pending-refresh marker. -/
theorem c6_pending_lifecycle (parse : String → Option Json) (s0 s : RSt)
    (hinit : RInit s0) (hreach : RReach parse s0 s) :
    (∀ s' i p r, RStep parse s s' → s.tasks i = .creatorAwait p →
       s'.tasks i = .done r →
       s'.refreshInFlight = none ∧ s.proms p = .settled r) ∧
    (∀ s' i, RStep parse s s' → s.refreshInFlight = none →
       s.tasks i = .ready → s'.tasks i ≠ .ready →
       s'.tasks i = .creatorAwait s.nextProm ∧
       s'.refreshInFlight = some s.nextProm ∧
       s'.nextProm = s.nextProm + 1 ∧
       s.proms s.nextProm = .absent) := by
  have hinv := rinv_reach (rinit_inv hinit) hreach
  refine ⟨?_, ?_⟩
  · intro s' i p r hstep hi hdone
    exact ⟨step_creator_done_clears hstep hi hdone,
           step_done_settled hstep (Or.inl hi) hdone⟩
  · intro s' i hstep hn hi hne
    obtain ⟨h1, h2, h3⟩ := step_ready_create hstep hn hi hne
    exact ⟨h1, h2, h3, hinv.2.2.2 s.nextProm (Nat.le_refl _)⟩

/-- Witness for C6 at the concrete initial state (reachable by the empty
run). -/
theorem c6_pending_lifecycle_witness :
    (∀ s' i p r, RStep parse0 rInitSt s' → rInitSt.tasks i = .creatorAwait p →
       s'.tasks i = .done r →
       s'.refreshInFlight = none ∧ rInitSt.proms p = .settled r) ∧
    (∀ s' i, RStep parse0 rInitSt s' → rInitSt.refreshInFlight = none →
       rInitSt.tasks i = .ready → s'.tasks i ≠ .ready →
       s'.tasks i = .creatorAwait rInitSt.nextProm ∧
       s'.refreshInFlight = some rInitSt.nextProm ∧
       s'.nextProm = rInitSt.nextProm + 1 ∧
       rInitSt.proms rInitSt.nextProm = .absent) :=
  c6_pending_lifecycle parse0 rInitSt rInitSt
    ⟨rfl, rfl, rfl, fun _ => rfl, fun _ => rfl⟩
    Relation.ReflTransGen.refl

theorem handleResponse_ok (parse : String → Option Json) (res : HttpResp)
    (h : resOk res.status = true) :
    handleResponse parse res =
      .ok { status := res.status
          , data := (parseBody parse res.bodyText).getD (.obj []) } := by
  simp only [handleResponse, h, if_true]

theorem handleResponse_err (parse : String → Option Json) (res : HttpResp)
    (h : resOk res.status = false) :
    handleResponse parse res =
      .error
        { message := errMessage (parseBody parse res.bodyText)
            ["message", "error", "title", "error_message"]
            ("Constant Contact API error (" ++ toString res.status ++ ")")
        , status := some res.status
        , details := some (errDetails parse res) } := by
  simp only [handleResponse, h, Bool.false_eq_true, if_false]

/-- C3: Non-auth errors are terminal.  When the base URL and a current
token are available and the first upstream response has a non-success
status different from 401, `ccFetchJson` fails with an error carrying
exactly that status and the parsed (or raw-text) body as `details`,
exactly one upstream request is sent, no token-endpoint call is made,
and the cached token is untouched. -/
theorem c3_non_auth_terminal (parse : String → Option Json) (env : Env)
    (cache0 : Option Json) (opts : FetchOpts) (res1 tokenRes res2 : HttpResp)
    (baseUrl : String) (tok : Json) (cache1 : Option Json)
    (hbase : requireEnv env "CC_BASE_URL" = .ok baseUrl)
    (htok : getAccessToken env cache0 = (.ok tok, cache1))
    (hstatus : resOk res1.status = false)
    (h401 : res1.status ≠ 401) :
    ccFetchJson parse env cache0 opts res1 tokenRes res2 =
      { result := .error
          { message := errMessage (parseBody parse res1.bodyText)
              ["message", "error", "title", "error_message"]
              ("Constant Contact API error (" ++ toString res1.status ++ ")")
          , status := some res1.status
          , details := some (errDetails parse res1) }
      , cache := cache1
      , reqs := [buildRequest baseUrl tok opts]
      , tokenCalls := 0 } := by
  have hhr := handleResponse_err parse res1 hstatus
  simp [ccFetchJson, hbase, htok, hhr, h401]

/-- Concrete witness for C3: a 404 with the JSON body
`{"message":"not found"}`. -/
def parse404 : String → Option Json := fun s =>
  if s = "\x7b\"message\":\"not found\"\x7d" then
    some (.obj [("message", .str "not found")])
  else none

/-- Environment used by the sequential witnesses: every variable the
client reads is configured. -/
def envW : Env := fun name =>
  if name = "CC_BASE_URL" then some "https://api.cc.email/v3"
  else if name = "CC_ACCESS_TOKEN" then some "T1"
  else if name = "CC_CLIENT_ID" then some "client-1"
  else if name = "CC_REFRESH_TOKEN" then some "R1"
  else none

theorem c3_non_auth_terminal_witness :
    ccFetchJson parse404 envW (some (.str "T1")) { path := "/contacts" }
      ⟨404, "\x7b\"message\":\"not found\"\x7d"⟩ ⟨200, ""⟩ ⟨200, ""⟩ =
      { result := .error
          { message := errMessage
              (parseBody parse404 "\x7b\"message\":\"not found\"\x7d")
              ["message", "error", "title", "error_message"]
              ("Constant Contact API error (" ++ toString (404 : Nat) ++ ")")
          , status := some 404
          , details := some (errDetails parse404 ⟨404, "\x7b\"message\":\"not found\"\x7d"⟩) }
      , cache := some (.str "T1")
      , reqs := [buildRequest "https://api.cc.email/v3" (.str "T1") { path := "/contacts" }]
      , tokenCalls := 0 } :=
  c3_non_auth_terminal parse404 envW (some (.str "T1")) { path := "/contacts" }
    ⟨404, "\x7b\"message\":\"not found\"\x7d"⟩ ⟨200, ""⟩ ⟨200, ""⟩
    "https://api.cc.email/v3" (.str "T1") (some (.str "T1"))
    rfl rfl rfl (by decide)

/-- A parse oracle agreeing with `JSON.parse` on the body texts used
around C4: the text `null` parses to JSON `null`. -/
def parseNull : String → Option Json := fun s =>
  if s = "null" then some .null else none

/-- Counterexample to C4 as stated: a 200 response whose body is the
text `null` parses successfully as JSON (to the JSON value `null`), yet
the returned `data` is the empty object, not the parsed body — the
source's `data ?? {}` cannot distinguish a parsed `null` from an absent
body. -/
theorem c4_counterexample :
    parseNull "null" = some Json.null ∧
    resOk 200 = true ∧
    handleResponse parseNull ⟨200, "null"⟩ =
      .ok { status := 200, data := .obj [] } ∧
    Json.obj [] ≠ Json.null :=
  ⟨rfl, rfl, rfl, fun h => Json.noConfusion h⟩

/-- C4 (amended): Success pass-through with lenient body parsing.  When
the base URL and a current token are available and the first upstream
status is 2xx, `ccFetchJson` succeeds with exactly that status; `data`
is the JSON-parsed body when it parses to a non-null value, and the
empty object when the body is empty, fails to parse, or parses to JSON
`null`; no refresh is triggered. -/
theorem c4_success_passthrough (parse : String → Option Json) (env : Env)
    (cache0 : Option Json) (opts : FetchOpts) (res1 tokenRes res2 : HttpResp)
    (baseUrl : String) (tok : Json) (cache1 : Option Json)
    (hbase : requireEnv env "CC_BASE_URL" = .ok baseUrl)
    (htok : getAccessToken env cache0 = (.ok tok, cache1))
    (hstatus : resOk res1.status = true) :
    ccFetchJson parse env cache0 opts res1 tokenRes res2 =
      { result := .ok { status := res1.status
                      , data := (parseBody parse res1.bodyText).getD (.obj []) }
      , cache := cache1
      , reqs := [buildRequest baseUrl tok opts]
      , tokenCalls := 0 } ∧
    (∀ j, parseBody parse res1.bodyText = some j →
       (ccFetchJson parse env cache0 opts res1 tokenRes res2).result =
         .ok { status := res1.status, data := j }) ∧
    (parseBody parse res1.bodyText = none →
       (ccFetchJson parse env cache0 opts res1 tokenRes res2).result =
         .ok { status := res1.status, data := .obj [] }) := by
  have hhr := handleResponse_ok parse res1 hstatus
  have hmain : ccFetchJson parse env cache0 opts res1 tokenRes res2 =
      { result := .ok { status := res1.status
                      , data := (parseBody parse res1.bodyText).getD (.obj []) }
      , cache := cache1
      , reqs := [buildRequest baseUrl tok opts]
      , tokenCalls := 0 } := by
    simp [ccFetchJson, hbase, htok, hhr]
  refine ⟨hmain, ?_, ?_⟩
  · intro j hj
    rw [hmain]
    simp [hj]
  · intro hj
    rw [hmain]
    simp [hj]

/-- Parse oracle for the C4 witness, agreeing with `JSON.parse` on the
body `{"contacts":[]}`. -/
def parseContacts : String → Option Json := fun s =>
  if s = "\x7b\"contacts\":[]\x7d" then
    some (.obj [("contacts", .arr [])])
  else none

theorem c4_success_passthrough_witness :
    (ccFetchJson parseContacts envW (some (.str "T1")) { path := "/contacts" }
        ⟨200, "\x7b\"contacts\":[]\x7d"⟩ ⟨200, ""⟩ ⟨200, ""⟩ =
      { result := .ok { status := 200
                      , data := (parseBody parseContacts "\x7b\"contacts\":[]\x7d").getD (.obj []) }
      , cache := some (.str "T1")
      , reqs := [buildRequest "https://api.cc.email/v3" (.str "T1") { path := "/contacts" }]
      , tokenCalls := 0 }) ∧
    (∀ j, parseBody parseContacts "\x7b\"contacts\":[]\x7d" = some j →
       (ccFetchJson parseContacts envW (some (.str "T1")) { path := "/contacts" }
          ⟨200, "\x7b\"contacts\":[]\x7d"⟩ ⟨200, ""⟩ ⟨200, ""⟩).result =
         .ok { status := 200, data := j }) ∧
    (parseBody parseContacts "\x7b\"contacts\":[]\x7d" = none →
       (ccFetchJson parseContacts envW (some (.str "T1")) { path := "/contacts" }
          ⟨200, "\x7b\"contacts\":[]\x7d"⟩ ⟨200, ""⟩ ⟨200, ""⟩).result =
         .ok { status := 200, data := .obj [] }) :=
  c4_success_passthrough parseContacts envW (some (.str "T1")) { path := "/contacts" }
    ⟨200, "\x7b\"contacts\":[]\x7d"⟩ ⟨200, ""⟩ ⟨200, ""⟩
    "https://api.cc.email/v3" (.str "T1") (some (.str "T1"))
    rfl rfl rfl

/-- C5: Refresh failure atomicity.  When the client id and refresh token
are configured and the token endpoint answers with a non-success status,
`refreshAccessToken` throws an error carrying that status and the parsed
(or raw-text) body, the stored token is exactly the token from before
the call, and one token-endpoint call was made. -/
theorem c5_refresh_failure_atomic (parse : String → Option Json) (env : Env)
    (cache : Option Json) (res : HttpResp) (cid rt : String)
    (hcid : requireEnv env "CC_CLIENT_ID" = .ok cid)
    (hrt : requireEnv env "CC_REFRESH_TOKEN" = .ok rt)
    (hstatus : resOk res.status = false) :
    refreshAccessToken parse env cache res =
      (.error
        { message := errMessage (parseBody parse res.bodyText)
            ["error_description", "error", "message"]
            ("Failed to refresh Constant Contact token (" ++ toString res.status ++ ")")
        , status := some res.status
        , details := some (errDetails parse res) }, cache, 1) := by
  simp [refreshAccessToken, hcid, hrt, refreshExchange, hstatus]

/-- Parse oracle agreeing with `JSON.parse` on the refresh-failure body
`{"error":"invalid_grant"}`. -/
def parseGrant : String → Option Json := fun s =>
  if s = "\x7b\"error\":\"invalid_grant\"\x7d" then
    some (.obj [("error", .str "invalid_grant")])
  else none

theorem c5_refresh_failure_atomic_witness :
    refreshAccessToken parseGrant envW (some (.str "T1"))
        ⟨400, "\x7b\"error\":\"invalid_grant\"\x7d"⟩ =
      (.error
        { message := errMessage
            (parseBody parseGrant "\x7b\"error\":\"invalid_grant\"\x7d")
            ["error_description", "error", "message"]
            ("Failed to refresh Constant Contact token (" ++ toString (400 : Nat) ++ ")")
        , status := some 400
        , details := some (errDetails parseGrant ⟨400, "\x7b\"error\":\"invalid_grant\"\x7d"⟩) },
       some (.str "T1"), 1) :=
  c5_refresh_failure_atomic parseGrant envW (some (.str "T1"))
    ⟨400, "\x7b\"error\":\"invalid_grant\"\x7d"⟩ "client-1" "R1" rfl rfl (by decide)

/-- A configuration variable is absent in the sense of `requireEnv`'s
`if (!v)`: unset, or set to the empty string. -/
def envMissing (env : Env) (name : String) : Prop :=
  env name = none ∨ env name = some ""

theorem requireEnv_of_missing {env : Env} {name : String}
    (h : envMissing env name) :
    requireEnv env name = .error (missingEnvErr name) := by
  rcases h with h | h <;> simp [requireEnv, h]

theorem requireEnv_of_not_missing {env : Env} {name : String}
    (h : ¬ envMissing env name) : ∃ v, requireEnv env name = .ok v := by
  unfold envMissing at h
  push_neg at h
  obtain ⟨h1, h2⟩ := h
  cases hv : env name with
  | none => exact absurd hv h1
  | some v =>
    have hv' : v ≠ "" := fun he => h2 (he ▸ hv)
    exact ⟨v, by simp [requireEnv, hv, hv']⟩

/-- C9: Refresh configuration precondition.  When the client identifier
or the refresh token is absent from configuration (unset or empty),
`refreshAccessToken` fails with the `Missing environment variable` error
naming a missing item (the client identifier is checked first), the
stored token is unchanged, and no token-endpoint network call is
made. -/
theorem c9_refresh_config_precondition (parse : String → Option Json)
    (env : Env) (cache : Option Json) (res : HttpResp)
    (h : envMissing env "CC_CLIENT_ID" ∨ envMissing env "CC_REFRESH_TOKEN") :
    ∃ name, envMissing env name ∧
      (name = "CC_CLIENT_ID" ∨ name = "CC_REFRESH_TOKEN") ∧
      refreshAccessToken parse env cache res =
        (.error (missingEnvErr name), cache, 0) := by
  by_cases hc : envMissing env "CC_CLIENT_ID"
  · refine ⟨"CC_CLIENT_ID", hc, Or.inl rfl, ?_⟩
    simp [refreshAccessToken, requireEnv_of_missing hc]
  · have hr : envMissing env "CC_REFRESH_TOKEN" := h.resolve_left hc
    obtain ⟨v, hv⟩ := requireEnv_of_not_missing hc
    refine ⟨"CC_REFRESH_TOKEN", hr, Or.inr rfl, ?_⟩
    simp [refreshAccessToken, hv, requireEnv_of_missing hr]

/-- Scenario B environment: everything configured except the refresh
token. -/
def envNoRT : Env := fun name =>
  if name = "CC_BASE_URL" then some "https://api.cc.email/v3"
  else if name = "CC_ACCESS_TOKEN" then some "T1"
  else if name = "CC_CLIENT_ID" then some "client-1"
  else none

theorem c9_refresh_config_precondition_witness :
    ∃ name, envMissing envNoRT name ∧
      (name = "CC_CLIENT_ID" ∨ name = "CC_REFRESH_TOKEN") ∧
      refreshAccessToken parse0 envNoRT (some (.str "T1")) ⟨200, ""⟩ =
        (.error (missingEnvErr name), some (.str "T1"), 0) :=
  c9_refresh_config_precondition parse0 envNoRT (some (.str "T1")) ⟨200, ""⟩
    (Or.inr (Or.inl rfl))

/-- Parse oracle agreeing with `JSON.parse` on the refresh body
`{"access_token":""}`. -/
def parseEmptyTok : String → Option Json := fun s =>
  if s = "\x7b\"access_token\":\"\"\x7d" then
    some (.obj [("access_token", .str "")])
  else none

/-- Counterexample to C7 as stated: the token endpoint answers 200 with
a body that does contain an `access_token` field (the empty string), yet
the refresh throws the protocol error — `if (!tokenResp.access_token)`
rejects any falsy field value — and the stored token is not
overwritten. -/
theorem c7_counterexample :
    resOk 200 = true ∧
    getField ((parseBody parseEmptyTok "\x7b\"access_token\":\"\"\x7d").getD (.obj []))
        "access_token" = some (.str "") ∧
    refreshExchange parseEmptyTok (some (.str "T1"))
        ⟨200, "\x7b\"access_token\":\"\"\x7d"⟩ =
      (.error protocolErr, some (.str "T1")) :=
  ⟨rfl, rfl, rfl⟩

/-- C7 (amended): Successful refresh adopts the new token.  When the
client id and refresh token are configured and the token endpoint
answers with a success status and a body whose `access_token` field is
truthy (in particular, a non-empty string), `refreshAccessToken`
overwrites the in-memory token with that field value, returns it, and
made exactly one token-endpoint call; every subsequent `getAccessToken`
on the updated cache returns the new token. -/
theorem c7_success_adopts (parse : String → Option Json) (env : Env)
    (cache : Option Json) (res : HttpResp) (v : Json) (cid rt : String)
    (hcid : requireEnv env "CC_CLIENT_ID" = .ok cid)
    (hrt : requireEnv env "CC_REFRESH_TOKEN" = .ok rt)
    (hok : resOk res.status = true)
    (hv : getField ((parseBody parse res.bodyText).getD (.obj []))
            "access_token" = some v)
    (htr : jsTruthy v = true) :
    refreshAccessToken parse env cache res = (.ok v, some v, 1) ∧
    getAccessToken env (some v) = (.ok v, some v) := by
  have hex : refreshExchange parse cache res = (.ok v, some v) := by
    simp [refreshExchange, hok, hv, htr]
  constructor
  · simp [refreshAccessToken, hcid, hrt, hex]
  · simp [getAccessToken, truthyOpt, htr]

/-- Parse oracle agreeing with `JSON.parse` on the refresh body
`{"access_token":"T2"}` and the contacts body `{"contacts":[]}`. -/
def parseAB : String → Option Json := fun s =>
  if s = "\x7b\"access_token\":\"T2\"\x7d" then
    some (.obj [("access_token", .str "T2")])
  else if s = "\x7b\"contacts\":[]\x7d" then
    some (.obj [("contacts", .arr [])])
  else none

theorem c7_success_adopts_witness :
    refreshAccessToken parseAB envW (some (.str "T1"))
        ⟨200, "\x7b\"access_token\":\"T2\"\x7d"⟩ =
      (.ok (.str "T2"), some (.str "T2"), 1) ∧
    getAccessToken envW (some (.str "T2")) = (.ok (.str "T2"), some (.str "T2")) :=
  c7_success_adopts parseAB envW (some (.str "T1"))
    ⟨200, "\x7b\"access_token\":\"T2\"\x7d"⟩ (.str "T2") "client-1" "R1"
    rfl rfl rfl rfl rfl

theorem refresh_ok_calls {parse : String → Option Json} {env : Env}
    {cache : Option Json} {res : HttpResp} {t : Json} {c : Option Json} {n : Nat}
    (h : refreshAccessToken parse env cache res = (.ok t, c, n)) : n = 1 := by
  unfold refreshAccessToken at h
  cases h1 : requireEnv env "CC_CLIENT_ID" with
  | error e => rw [h1] at h; simp [Prod.ext_iff] at h
  | ok cid =>
    rw [h1] at h
    cases h2 : requireEnv env "CC_REFRESH_TOKEN" with
    | error e => rw [h2] at h; simp [Prod.ext_iff] at h
    | ok rt =>
      rw [h2] at h
      simp [Prod.ext_iff] at h
      exact h.2.2.symm

/-- C2: Single retry, no loop.  When the base URL and a current token
are available and the first upstream attempt returns status 401, the
Executor invokes the refresh operation; if the refresh yields a new
token, the request is resent exactly once carrying that new token,
exactly one token-endpoint call was made, and the retry's outcome —
success or failure, including another 401 — is returned as is, with no
further refresh or retry; if the refresh itself fails, that failure
surfaces with no resend. -/
theorem c2_single_retry (parse : String → Option Json) (env : Env)
    (cache0 : Option Json) (opts : FetchOpts) (res1 tokenRes res2 : HttpResp)
    (baseUrl : String) (tok : Json) (cache1 : Option Json)
    (hbase : requireEnv env "CC_BASE_URL" = .ok baseUrl)
    (htok : getAccessToken env cache0 = (.ok tok, cache1))
    (h401 : res1.status = 401) :
    (∀ newTok cache2 n,
       refreshAccessToken parse env cache1 tokenRes = (.ok newTok, cache2, n) →
       ccFetchJson parse env cache0 opts res1 tokenRes res2 =
         { result := handleResponse parse res2
         , cache := cache2
         , reqs := [buildRequest baseUrl tok opts, buildRequest baseUrl newTok opts]
         , tokenCalls := n } ∧ n = 1) ∧
    (∀ e2 cache2 n,
       refreshAccessToken parse env cache1 tokenRes = (.error e2, cache2, n) →
       ccFetchJson parse env cache0 opts res1 tokenRes res2 =
         { result := .error e2
         , cache := cache2
         , reqs := [buildRequest baseUrl tok opts]
         , tokenCalls := n }) ∧
    (resOk res2.status = false →
       ∃ e3, handleResponse parse res2 = .error e3 ∧ e3.status = some res2.status) := by
  have hstatus : resOk res1.status = false := by rw [h401]; decide
  have hhr := handleResponse_err parse res1 hstatus
  refine ⟨?_, ?_, ?_⟩
  · intro newTok cache2 n h
    refine ⟨?_, refresh_ok_calls h⟩
    simp [ccFetchJson, hbase, htok, hhr, h401, h]
  · intro e2 cache2 n h
    simp [ccFetchJson, hbase, htok, hhr, h401, h]
  · intro h2
    exact ⟨_, handleResponse_err parse res2 h2, rfl⟩

/-- Scenario A request options: `GET /contacts?limit=10`. -/
def optsA : FetchOpts :=
  { path := "/contacts", query := some [("limit", some (.n 10))] }

theorem c2_single_retry_witness :
    ccFetchJson parseAB envW (some (.str "T1")) optsA
        ⟨401, ""⟩ ⟨200, "\x7b\"access_token\":\"T2\"\x7d"⟩
        ⟨200, "\x7b\"contacts\":[]\x7d"⟩ =
      { result := handleResponse parseAB ⟨200, "\x7b\"contacts\":[]\x7d"⟩
      , cache := some (.str "T2")
      , reqs := [buildRequest "https://api.cc.email/v3" (.str "T1") optsA,
                 buildRequest "https://api.cc.email/v3" (.str "T2") optsA]
      , tokenCalls := 1 } ∧ (1 : Nat) = 1 :=
  (c2_single_retry parseAB envW (some (.str "T1")) optsA
      ⟨401, ""⟩ ⟨200, "\x7b\"access_token\":\"T2\"\x7d"⟩
      ⟨200, "\x7b\"contacts\":[]\x7d"⟩
      "https://api.cc.email/v3" (.str "T1") (some (.str "T1"))
      rfl rfl rfl).1
    (.str "T2") (some (.str "T2")) 1 rfl

theorem setParam_not_mem (ps : List (String × String)) (k v : String)
    (h : ∀ kv ∈ ps, kv.1 ≠ k) : setParam ps k v = ps ++ [(k, v)] := by
  unfold setParam
  rw [if_neg]
  intro hx
  obtain ⟨kv, hm, hbeq⟩ := List.any_eq_true.mp hx
  exact h kv hm (by simpa using hbeq)

theorem foldl_setParam_eq (entries : List (String × Option QVal))
    (acc : List (String × String))
    (hnd : (entries.map Prod.fst).Nodup)
    (hacc : ∀ kv ∈ acc, kv.1 ∉ entries.map Prod.fst) :
    entries.foldl
      (fun ps kv => match kv.2 with
        | none => ps
        | some v => setParam ps kv.1 (qvalStr v)) acc
    = acc ++ entries.filterMap (fun kv => kv.2.map (fun v => (kv.1, qvalStr v))) := by
  induction entries generalizing acc with
  | nil => simp
  | cons hd tl ih =>
    obtain ⟨k, ov⟩ := hd
    rw [List.map_cons, List.nodup_cons] at hnd
    obtain ⟨hk, hnd'⟩ := hnd
    cases ov with
    | none =>
      rw [List.foldl_cons]
      rw [List.filterMap_cons]
      exact ih acc hnd'
        (fun kv hm hmem => hacc kv hm (List.mem_cons_of_mem _ hmem))
    | some v =>
      rw [List.foldl_cons]
      rw [List.filterMap_cons]
      have hkacc : ∀ kv ∈ acc, kv.1 ≠ k := fun kv hm he =>
        hacc kv hm (he ▸ List.mem_cons_self k _)
      dsimp only
      rw [setParam_not_mem acc k (qvalStr v) hkacc]
      rw [ih (acc ++ [(k, qvalStr v)]) hnd' ?_]
      · simp [List.append_assoc]
      · intro kv hm
        rcases List.mem_append.mp hm with hm | hm
        · exact fun hmem => hacc kv hm (List.mem_cons_of_mem _ hmem)
        · have : kv = (k, qvalStr v) := by simpa using hm
          rw [this]
          exact hk

/-- Options with a supplied-but-falsy body. -/
def optsFalseBody : FetchOpts := { path := "/contacts", body := some (.bool false) }

/-- Counterexample to C8 as stated, on both failing facets.  Body: a
body is supplied (`false`, a valid JSON value), yet the assembled
request carries neither the JSON `Content-Type` header nor a body —
`opts.body ? ... : ...` treats any falsy body as absent.  URL: for a
configured base URL ending in a slash, the upstream URL is not the base
URL plus the path — `baseUrl.replace(/\/$/, "")` drops the trailing
slash first, so the built URL differs from the concatenation. -/
theorem c8_counterexample :
    (optsFalseBody.body = some (.bool false) ∧
     (buildRequest "https://api.cc.email/v3" (.str "T1") optsFalseBody).contentTypeJson = false ∧
     (buildRequest "https://api.cc.email/v3" (.str "T1") optsFalseBody).body = none) ∧
    ((buildRequest "https://api.cc.email/v3/" (.str "T1") optsFalseBody).url =
       "https://api.cc.email/v3/contacts" ∧
     "https://api.cc.email/v3/" ++ optsFalseBody.path = "https://api.cc.email/v3//contacts" ∧
     (buildRequest "https://api.cc.email/v3/" (.str "T1") optsFalseBody).url ≠
       "https://api.cc.email/v3/" ++ optsFalseBody.path) :=
  ⟨⟨rfl, rfl, rfl⟩, rfl, rfl, by decide⟩

/-- C8 (amended): Request construction.  The upstream URL is the
configured base URL (one trailing slash dropped) plus the path; when the
query keys are distinct — as they are for a JavaScript object — each
entry with an `undefined` value is omitted and every other value is
stringified and appended in order; the request carries the current token
in its `Authorization: Bearer` header and `Accept: application/json`;
and it carries the JSON `Content-Type` header and the JSON-serialized
body if and only if a truthy body is supplied (a supplied falsy body —
`null`, `false`, `0`, `""` — is treated as absent). -/
theorem c8_request_construction (baseUrl : String) (tok : Json)
    (opts : FetchOpts) (entries : List (String × Option QVal))
    (hq : opts.query = some entries)
    (hnd : (entries.map Prod.fst).Nodup) :
    (buildRequest baseUrl tok opts).url = stripTrailingSlash baseUrl ++ opts.path ∧
    (buildRequest baseUrl tok opts).query =
      entries.filterMap (fun kv => kv.2.map (fun v => (kv.1, qvalStr v))) ∧
    (buildRequest baseUrl tok opts).method = opts.method.getD "GET" ∧
    (buildRequest baseUrl tok opts).authToken = tok ∧
    (buildRequest baseUrl tok opts).accept = "application/json" ∧
    (∀ b, opts.body = some b → jsTruthy b = true →
       (buildRequest baseUrl tok opts).contentTypeJson = true ∧
       (buildRequest baseUrl tok opts).body = some b) ∧
    (∀ b, opts.body = some b → jsTruthy b = false →
       (buildRequest baseUrl tok opts).contentTypeJson = false ∧
       (buildRequest baseUrl tok opts).body = none) ∧
    (opts.body = none →
       (buildRequest baseUrl tok opts).contentTypeJson = false ∧
       (buildRequest baseUrl tok opts).body = none) := by
  refine ⟨rfl, ?_, rfl, rfl, rfl, ?_, ?_, ?_⟩
  · simp only [buildRequest, hq]
    exact foldl_setParam_eq entries [] hnd (by intro kv hm; cases hm)
  · intro b hb htr
    simp [buildRequest, hb, htr]
  · intro b hb htr
    simp [buildRequest, hb, htr]
  · intro hb
    simp [buildRequest, hb]

/-- Query used by the C8 witness: one live entry, one `undefined`
entry. -/
def entriesW : List (String × Option QVal) :=
  [("limit", some (.n 10)), ("cursor", none)]

/-- Options used by the C8 witness. -/
def optsQ : FetchOpts := { path := "/contacts", query := some entriesW }

theorem c8_request_construction_witness :
    (buildRequest "https://api.cc.email/v3/" (.str "T1") optsQ).url =
      stripTrailingSlash "https://api.cc.email/v3/" ++ optsQ.path ∧
    (buildRequest "https://api.cc.email/v3/" (.str "T1") optsQ).query =
      entriesW.filterMap (fun kv => kv.2.map (fun v => (kv.1, qvalStr v))) ∧
    (buildRequest "https://api.cc.email/v3/" (.str "T1") optsQ).method =
      optsQ.method.getD "GET" ∧
    (buildRequest "https://api.cc.email/v3/" (.str "T1") optsQ).authToken = .str "T1" ∧
    (buildRequest "https://api.cc.email/v3/" (.str "T1") optsQ).accept =
      "application/json" ∧
    (∀ b, optsQ.body = some b → jsTruthy b = true →
       (buildRequest "https://api.cc.email/v3/" (.str "T1") optsQ).contentTypeJson = true ∧
       (buildRequest "https://api.cc.email/v3/" (.str "T1") optsQ).body = some b) ∧
    (∀ b, optsQ.body = some b → jsTruthy b = false →
       (buildRequest "https://api.cc.email/v3/" (.str "T1") optsQ).contentTypeJson = false ∧
       (buildRequest "https://api.cc.email/v3/" (.str "T1") optsQ).body = none) ∧
    (optsQ.body = none →
       (buildRequest "https://api.cc.email/v3/" (.str "T1") optsQ).contentTypeJson = false ∧
       (buildRequest "https://api.cc.email/v3/" (.str "T1") optsQ).body = none) :=
  c8_request_construction "https://api.cc.email/v3/" (.str "T1") optsQ entriesW
    rfl (by decide)

/-- C10: Contact-detail route input validation.  If the `id` path
parameter does not look like a UUID, or the `include` query parameter is
present but parses to an empty CSV list or contains a value outside
`ALLOWED_INCLUDE`, the handler answers 400 with an error body — whatever
the upstream oracle would have returned — and the upstream contact
service is never called. -/
theorem c10_contact_detail_validation (id : String) (includeRaw : Option String)
    (fetchRes : Except JsError FetchOk)
    (h : looksUuid id = false ∨
         ∃ s, includeRaw = some s ∧
           (parseCsv s = [] ∨ ∃ v ∈ parseCsv s, ALLOWED_INCLUDE.contains v = false)) :
    ∃ m, contactDetailGET id includeRaw fetchRes =
      { status := 400, body := .obj [("error", .str m)], upstreamCalled := false } := by
  by_cases hu : looksUuid id
  · rcases h with h | ⟨s, hs, hbad⟩
    · rw [hu] at h; cases h
    · subst hs
      rcases hbad with hempty | ⟨v, hv, hvnot⟩
      · refine ⟨"Bad request: include cannot be empty. Example: include=phone_numbers,street_addresses", ?_⟩
        simp [contactDetailGET, hu, hempty]
      · have hvd : decide (v ∈ ALLOWED_INCLUDE) = false := by simpa using hvnot
        have hfind : ((parseCsv s).find?
            (fun x => !decide (x ∈ ALLOWED_INCLUDE))).isSome = true := by
          rw [List.find?_isSome]
          exact ⟨v, hv, by rw [hvd]; rfl⟩
        obtain ⟨w, hw⟩ := Option.isSome_iff_exists.mp hfind
        have hne : ¬ parseCsv s = [] := fun he => by rw [he] at hv; cases hv
        refine ⟨"Bad request: invalid include \"" ++ w ++ "\".", ?_⟩
        simp [contactDetailGET, hu, hne, hw]
  · rw [Bool.not_eq_true] at hu
    refine ⟨"Bad request: contact_id must be a UUID.", ?_⟩
    simp [contactDetailGET, hu]

theorem c10_contact_detail_validation_witness :
    ∃ m, contactDetailGET "xyz" none (.ok { status := 200, data := .obj [] }) =
      { status := 400, body := .obj [("error", .str m)], upstreamCalled := false } :=
  c10_contact_detail_validation "xyz" none (.ok { status := 200, data := .obj [] })
    (Or.inl (by decide))
